import Mathlib

/-!
Shallow embedding of the go-lambda-api repository: the user data model
(src/models/user.go), the response helpers (src/unnamed/part_000, package
utils), the user handlers (src/handlers/user_handler.go), the local-server
adapter (src/internal/app/app.go), and lambda.Router (the cmd/lambda
router file, included as the third document of
src/scripts/generate_coverage.sh).

Conventions of the embedding:
- Go time.Time is modelled as a Nat timestamp; the zero value is 0.
- Go errors are Strings; fallible calls return Except String.
- The in-memory map[string]User is an association list with Go map
  semantics (insert replaces the binding for an existing key).
- json.Unmarshal of a request body is modelled by an
  `Except String UserRequest` input (the parse outcome); json.Marshal of
  the concrete types User, []User and map[string]string cannot fail in Go,
  so the handler-level marshal is a total function, while the generic
  utils.APIResponse is modelled over an arbitrary marshal outcome so that
  its failure branch is covered.
-/

namespace GoLambdaApi

/-- models.User (src/models/user.go). CreatedAt is a Nat timestamp. -/
structure User where
  id : String
  name : String
  email : String
  createdAt : Nat
  deriving Repr, DecidableEq

/-- models.UserRequest (src/models/user.go). -/
structure UserRequest where
  name : String
  email : String
  deriving Repr, DecidableEq

/-- models.UserRequest.Validate: returns the error message, none on success. -/
def UserRequest.Validate (ur : UserRequest) (isUpdate : Bool) : Option String :=
  if !isUpdate then
    if ur.name = "" then some "name is required"
    else if ur.email = "" then some "email is required"
    else none
  else if ur.name = "" && ur.email = "" then some "no fields to update"
  else none

/-- The in-memory store map[string]User, as an association list. -/
abbrev UserMap := List (String × User)

/-- Go map read m[k]. -/
def mapLookup (m : UserMap) (k : String) : Option User :=
  match m with
  | [] => none
  | (k₀, v₀) :: rest => if k₀ = k then some v₀ else mapLookup rest k

/-- Go map write m[k] = v: replaces the binding of an existing key. -/
def mapInsert (m : UserMap) (k : String) (v : User) : UserMap :=
  match m with
  | [] => [(k, v)]
  | (k₀, v₀) :: rest =>
      if k₀ = k then (k, v) :: rest else (k₀, v₀) :: mapInsert rest k v

/-- Go delete(m, k). -/
def mapDelete (m : UserMap) (k : String) : UserMap :=
  match m with
  | [] => []
  | (k₀, v₀) :: rest =>
      if k₀ = k then mapDelete rest k else (k₀, v₀) :: mapDelete rest k

/-- inMemoryUserRepository.GetUserByID. -/
def GetUserByID (m : UserMap) (id : String) : Except String User :=
  match mapLookup m id with
  | some user => .ok user
  | none => .error "user not found"

/-- inMemoryUserRepository.GetAllUsers: the values of the map. -/
def GetAllUsers (m : UserMap) : List User :=
  m.map (fun p => p.2)

/-- inMemoryUserRepository.CreateUser: unconditional store, never errors. -/
def CreateUser (m : UserMap) (user : User) : Except String User × UserMap :=
  (.ok user, mapInsert m user.id user)

/-- inMemoryUserRepository.UpdateUser: store only when the id exists. -/
def UpdateUser (m : UserMap) (user : User) : Except String User × UserMap :=
  match mapLookup m user.id with
  | none => (.error "user not found", m)
  | some _ => (.ok user, mapInsert m user.id user)

/-- inMemoryUserRepository.DeleteUser: remove only when the id exists. -/
def DeleteUser (m : UserMap) (id : String) : Except String Unit × UserMap :=
  match mapLookup m id with
  | none => (.error "user not found", m)
  | some _ => (.ok (), mapDelete m id)

/-- events.APIGatewayProxyResponse (the fields the code uses). -/
structure APIGatewayProxyResponse where
  statusCode : Nat
  headers : List (String × String)
  body : String
  deriving Repr, DecidableEq

/-- json.Marshal of map[string]string with one "error" key, as
utils.ErrorResponse produces it. -/
def jsonErrorBody (msg : String) : String :=
  "\x7b\"error\":\"" ++ msg ++ "\"\x7d"

/-- json.Marshal of a models.User (fields in struct-tag order). -/
def marshalUser (u : User) : String :=
  "\x7b\"id\":\"" ++ u.id ++ "\",\"name\":\"" ++ u.name ++
    "\",\"email\":\"" ++ u.email ++ "\",\"created_at\":\"" ++
    toString u.createdAt ++ "\"\x7d"

/-- utils.ErrorResponse: status as given, JSON error body,
Content-Type header (EnsureHeaders leaves it unchanged). Its returned Go
error is always nil. -/
def ErrorResponse (statusCode : Nat) (msg : String) : APIGatewayProxyResponse :=
  ⟨statusCode, [("Content-Type", "application/json")], jsonErrorBody msg⟩

/-- utils.APIResponse specialised to a marshal that succeeded with body
string `s` (marshalling User, []User cannot fail). -/
def mkAPIResponse (statusCode : Nat) (s : String) : APIGatewayProxyResponse :=
  ⟨statusCode, [("Content-Type", "application/json")], s⟩

/-- utils.APIResponse with a nil body (the 204 path): no marshal, empty
body string. -/
def mkAPIResponseNoBody (statusCode : Nat) : APIGatewayProxyResponse :=
  ⟨statusCode, [("Content-Type", "application/json")], ""⟩

/-- utils.APIResponse in full generality (src/unnamed/part_000): the body
argument is `none` for a nil body, `some (.ok s)` when json.Marshal
succeeds with s, `some (.error e)` when json.Marshal fails with e. The
second component is the Go error returned next to the response. -/
def APIResponse (statusCode : Nat) (body : Option (Except String String)) :
    APIGatewayProxyResponse × Option String :=
  match body with
  | none => (⟨statusCode, [("Content-Type", "application/json")], ""⟩, none)
  | some (.ok s) => (⟨statusCode, [("Content-Type", "application/json")], s⟩, none)
  | some (.error e) =>
      (⟨500, [("Content-Type", "application/json")],
        "\x7b\"error\": \"" ++ e ++ "\"\x7d"⟩,
       some ("failed to marshal response body: " ++ e))

/-- Go reads request.PathParameters["id"]: a missing key yields "". -/
def lookupParam (ps : List (String × String)) (k : String) : String :=
  match ps with
  | [] => ""
  | (k₀, v₀) :: rest => if k₀ = k then v₀ else lookupParam rest k

/-- UserHandler.CreateUserHandler (src/handlers/user_handler.go).
`parsedBody` is the json.Unmarshal outcome for request.Body, `genId` the
uuid.New().String() value, `now` the time.Now() value. Returns the
response together with the repository state after the call; the Go error
component is nil on every branch (marshalling a User cannot fail). -/
def CreateUserHandler (st : UserMap) (parsedBody : Except String UserRequest)
    (genId : String) (now : Nat) : APIGatewayProxyResponse × UserMap :=
  match parsedBody with
  | .error e => (ErrorResponse 400 e, st)
  | .ok userReq =>
    match userReq.Validate false with
    | some msg => (ErrorResponse 400 msg, st)
    | none =>
      let newUser : User := ⟨genId, userReq.name, userReq.email, now⟩
      match CreateUser st newUser with
      | (.error e, st₂) => (ErrorResponse 500 e, st₂)
      | (.ok createdUser, st₂) => (mkAPIResponse 201 (marshalUser createdUser), st₂)

/-- UserHandler.GetUserHandler (src/handlers/user_handler.go). -/
def GetUserHandler (st : UserMap) (pathParams : List (String × String)) :
    APIGatewayProxyResponse × UserMap :=
  let userID := lookupParam pathParams "id"
  if userID = "" then (ErrorResponse 400 "user ID is required", st)
  else
    match GetUserByID st userID with
    | .error e => (ErrorResponse 404 e, st)
    | .ok user => (mkAPIResponse 200 (marshalUser user), st)

/-- UserHandler.UpdateUserHandler (src/handlers/user_handler.go): fields
of the parsed body overwrite the stored user only when non-empty. -/
def UpdateUserHandler (st : UserMap) (pathParams : List (String × String))
    (parsedBody : Except String UserRequest) : APIGatewayProxyResponse × UserMap :=
  let userID := lookupParam pathParams "id"
  if userID = "" then (ErrorResponse 400 "user ID is required", st)
  else
    match parsedBody with
    | .error e => (ErrorResponse 400 e, st)
    | .ok userReq =>
      match userReq.Validate true with
      | some msg => (ErrorResponse 400 msg, st)
      | none =>
        match GetUserByID st userID with
        | .error e => (ErrorResponse 404 e, st)
        | .ok existingUser =>
          let u₁ := if userReq.name ≠ "" then
              { existingUser with name := userReq.name } else existingUser
          let u₂ := if userReq.email ≠ "" then
              { u₁ with email := userReq.email } else u₁
          match UpdateUser st u₂ with
          | (.error e, st₂) => (ErrorResponse 500 e, st₂)
          | (.ok updatedUser, st₂) => (mkAPIResponse 200 (marshalUser updatedUser), st₂)

/-- UserHandler.DeleteUserHandler (src/handlers/user_handler.go): a "user
not found" error message maps to 404, any other error to 500, success to
a 204 with nil body. -/
def DeleteUserHandler (st : UserMap) (pathParams : List (String × String)) :
    APIGatewayProxyResponse × UserMap :=
  let userID := lookupParam pathParams "id"
  if userID = "" then (ErrorResponse 400 "user ID is required", st)
  else
    match DeleteUser st userID with
    | (.error e, st₂) =>
        if e = "user not found" then (ErrorResponse 404 e, st₂)
        else (ErrorResponse 500 e, st₂)
    | (.ok _, st₂) => (mkAPIResponseNoBody 204, st₂)

/-- The pair http.ResponseWriter receives in app.adapt: status and body. -/
structure HttpResponse where
  status : Nat
  body : String
  deriving Repr, DecidableEq

/-- app.adapt (src/internal/app/app.go): the error branch calls
http.Error(w, err.Error(), 500), which writes the message plus a newline;
otherwise the handler response is written through. -/
def adapt (result : APIGatewayProxyResponse × Option String) : HttpResponse :=
  match result.2 with
  | some e => ⟨500, e ++ "\n"⟩
  | none => ⟨result.1.statusCode, result.1.body⟩

/-- dynamoDBUserRepository.GetAllUsers (src/models/user.go) over an
abstract backend: `scan` is the outcome of db.Scan (a list of raw items
of any type α), `unmarshal` the outcome of
dynamodbattribute.UnmarshalListOfMaps on those items. Both failure
branches log and return the empty list. -/
def dynamoGetAllUsers {α : Type} (scan : Except String (List α))
    (unmarshal : List α → Except String (List User)) : List User :=
  match scan with
  | .error _ => []
  | .ok items =>
    match unmarshal items with
    | .error _ => []
    | .ok users => users

/-- Folding CreateUser over a list of users, threading the store. -/
def createMany (st : UserMap) (users : List User) : UserMap :=
  match users with
  | [] => st
  | u :: rest => createMany (CreateUser st u).2 rest

/-- The fields of events.APIGatewayProxyRequest that the router and the
handlers read. HTTPMethod and Path are the Go strings; parsedBody is the
json.Unmarshal outcome of Body, consumed only by the create/update
routes. -/
structure Request where
  httpMethod : String
  path : String
  pathParameters : List (String × String)
  parsedBody : Except String UserRequest

/-- commonHeaders of lambda.Router (the cmd/lambda router file, third
document of src/scripts/generate_coverage.sh). -/
def commonHeaders : List (String × String) :=
  [("Content-Type", "application/json"),
   ("Access-Control-Allow-Origin", "*"),
   ("Access-Control-Allow-Methods", "GET,POST,PUT,DELETE,OPTIONS"),
   ("Access-Control-Allow-Headers",
     "Content-Type,Authorization,X-Amz-Date,X-Api-Key,X-Amz-Security-Token"),
   ("Access-Control-Allow-Credentials", "true")]

/-- Go map read headers[k] with presence flag. -/
def lookupHeader (hs : List (String × String)) (k : String) : Option String :=
  match hs with
  | [] => none
  | (k₀, v₀) :: rest => if k₀ = k then some v₀ else lookupHeader rest k

/-- The header-merge loop at the end of lambda.Router: each common
header is written into the response only when the handler did not
already set that key. -/
def mergeHeaders (respHeaders common : List (String × String)) :
    List (String × String) :=
  respHeaders ++ common.filter (fun p => lookupHeader respHeaders p.1 = none)

/-- json.Marshal of map[string]string with one "message" key, as
handleRootGet and GetHealthHandler produce it. -/
def jsonMessageBody (msg : String) : String :=
  "\x7b\"message\":\"" ++ msg ++ "\"\x7d"

/-- json.Marshal of a []User, as GetAllUsersHandler produces it. -/
def marshalUserList (us : List User) : String :=
  "[" ++ String.intercalate "," (us.map marshalUser) ++ "]"

/-- lambda.Router (third document of src/scripts/generate_coverage.sh).
OPTIONS returns 200 with commonHeaders and the zero-value empty body,
regardless of path. Otherwise the switch compares request.Path literally
against "/", "/health", "/users" and the literal constant UsersIDPath =
"/users/\x7bid\x7d" (no parameter binding is performed by the router),
defaulting to utils.ErrorResponse(404, "not found"); commonHeaders are
then merged into the response for keys the handler did not set. Every
bound handler returns a nil Go error (marshalling User, []User and
map[string]string cannot fail, and utils.ErrorResponse always returns a
nil error), so the `err != nil` error-mapping branch of the Go source is
unreachable and has no counterpart here. `genId` and `now` feed the
create route's uuid.New() and time.Now() as in CreateUserHandler. -/
def Router (st : UserMap) (req : Request) (genId : String) (now : Nat) :
    APIGatewayProxyResponse × UserMap :=
  if req.httpMethod = "OPTIONS" then (⟨200, commonHeaders, ""⟩, st)
  else
    let routed : APIGatewayProxyResponse × UserMap :=
      if req.path = "/" ∧ req.httpMethod = "GET" then
        (mkAPIResponse 200 (jsonMessageBody "Welcome to the Go Lambda API"), st)
      else if req.path = "/health" ∧ req.httpMethod = "GET" then
        (mkAPIResponse 200 (jsonMessageBody "Health Check OK"), st)
      else if req.path = "/users" ∧ req.httpMethod = "POST" then
        CreateUserHandler st req.parsedBody genId now
      else if req.path = "/users/\x7bid\x7d" ∧ req.httpMethod = "GET" then
        GetUserHandler st req.pathParameters
      else if req.path = "/users" ∧ req.httpMethod = "GET" then
        (mkAPIResponse 200 (marshalUserList (GetAllUsers st)), st)
      else if req.path = "/users/\x7bid\x7d" ∧ req.httpMethod = "PUT" then
        UpdateUserHandler st req.pathParameters req.parsedBody
      else if req.path = "/users/\x7bid\x7d" ∧ req.httpMethod = "DELETE" then
        DeleteUserHandler st req.pathParameters
      else (ErrorResponse 404 "not found", st)
    ({ routed.1 with headers := mergeHeaders routed.1.headers commonHeaders },
      routed.2)

/-! ### Lemmas about the map operations -/

theorem mapLookup_mapInsert_self (m : UserMap) (k : String) (v : User) :
    mapLookup (mapInsert m k v) k = some v := by
  induction m with
  | nil => simp [mapInsert, mapLookup]
  | cons p rest ih =>
    obtain ⟨k₀, v₀⟩ := p
    by_cases h : k₀ = k <;> simp [mapInsert, mapLookup, h, ih]

theorem mapLookup_mapInsert_ne (m : UserMap) (k : String) (v : User)
    (k₁ : String) (hne : k₁ ≠ k) :
    mapLookup (mapInsert m k v) k₁ = mapLookup m k₁ := by
  have hne' : k ≠ k₁ := Ne.symm hne
  induction m with
  | nil => simp [mapInsert, mapLookup, hne']
  | cons p rest ih =>
    obtain ⟨k₀, v₀⟩ := p
    by_cases h : k₀ = k
    · subst h
      simp [mapInsert, mapLookup, hne']
    · simp [mapInsert, mapLookup, h, ih]

theorem mapLookup_mapDelete_self (m : UserMap) (k : String) :
    mapLookup (mapDelete m k) k = none := by
  induction m with
  | nil => simp [mapDelete, mapLookup]
  | cons p rest ih =>
    obtain ⟨k₀, v₀⟩ := p
    by_cases h : k₀ = k <;> simp [mapDelete, mapLookup, h, ih]

theorem mapLookup_eq_none_iff (m : UserMap) (k : String) :
    mapLookup m k = none ↔ ∀ p ∈ m, p.1 ≠ k := by
  induction m with
  | nil => simp [mapLookup]
  | cons p rest ih =>
    obtain ⟨k₀, v₀⟩ := p
    by_cases h : k₀ = k <;> simp [mapLookup, h, ih]

theorem mapInsert_of_lookup_none (m : UserMap) (k : String) (v : User)
    (h : mapLookup m k = none) : mapInsert m k v = m ++ [(k, v)] := by
  induction m with
  | nil => simp [mapInsert]
  | cons p rest ih =>
    obtain ⟨k₀, v₀⟩ := p
    by_cases hk : k₀ = k
    · simp [mapLookup, hk] at h
    · simp [mapLookup, hk] at h
      simp [mapInsert, hk, ih h]

theorem mapLookup_append_of_none (m m₂ : UserMap) (k : String)
    (h : mapLookup m k = none) : mapLookup (m ++ m₂) k = mapLookup m₂ k := by
  induction m with
  | nil => simp
  | cons p rest ih =>
    obtain ⟨k₀, v₀⟩ := p
    by_cases hk : k₀ = k
    · simp [mapLookup, hk] at h
    · simp [mapLookup, hk] at h
      simpa [mapLookup, hk] using ih h

theorem createMany_eq (users : List User) (m : UserMap)
    (hnodup : (users.map User.id).Nodup)
    (hfresh : ∀ u ∈ users, mapLookup m u.id = none) :
    createMany m users = m ++ users.map (fun u => (u.id, u)) := by
  induction users generalizing m with
  | nil => simp [createMany]
  | cons u rest ih =>
    simp only [List.map_cons, List.nodup_cons, List.mem_map] at hnodup
    have hu : mapLookup m u.id = none := hfresh u (List.mem_cons_self u rest)
    have hins : mapInsert m u.id u = m ++ [(u.id, u)] :=
      mapInsert_of_lookup_none m u.id u hu
    have hrest : ∀ v ∈ rest, mapLookup (m ++ [(u.id, u)]) v.id = none := by
      intro v hv
      have hvm : mapLookup m v.id = none := hfresh v (List.mem_cons_of_mem u hv)
      have hne : v.id ≠ u.id := by
        intro hEq
        exact hnodup.1 ⟨v, hv, hEq⟩
      rw [mapLookup_append_of_none m _ _ hvm]
      simp [mapLookup, Ne.symm hne]
    calc createMany m (u :: rest)
        = createMany (mapInsert m u.id u) rest := by
          simp [createMany, CreateUser]
      _ = createMany (m ++ [(u.id, u)]) rest := by rw [hins]
      _ = (m ++ [(u.id, u)]) ++ rest.map (fun v => (v.id, v)) :=
          ih (m ++ [(u.id, u)]) hnodup.2 hrest
      _ = m ++ (u :: rest).map (fun v => (v.id, v)) := by simp

/-! ### Claim theorems -/

/-- C10: The in-memory repository's CreateUser never returns an error:
for every repository state and every user, it stores the user under its
id and returns it unchanged, silently overwriting any existing user that
already has the same id (no uniqueness check at the repository level):
all other keys keep their previous binding. -/
theorem C10_createUser_total_overwrite (st : UserMap) (u : User) :
    (CreateUser st u).1 = .ok u ∧
    mapLookup (CreateUser st u).2 u.id = some u ∧
    (∀ k, k ≠ u.id → mapLookup (CreateUser st u).2 k = mapLookup st k) := by
  refine ⟨rfl, mapLookup_mapInsert_self st u.id u, ?_⟩
  intro k hk
  exact mapLookup_mapInsert_ne st u.id u k hk

theorem C10_witness :
    (CreateUser [("b", ⟨"b", "x", "y", 1⟩)] ⟨"b", "n", "e", 0⟩).1 =
      .ok ⟨"b", "n", "e", 0⟩ ∧
    mapLookup (CreateUser [("b", ⟨"b", "x", "y", 1⟩)] ⟨"b", "n", "e", 0⟩).2 "b" =
      some ⟨"b", "n", "e", 0⟩ ∧
    mapLookup (CreateUser [("b", ⟨"b", "x", "y", 1⟩)] ⟨"b", "n", "e", 0⟩).2 "c" =
      mapLookup [("b", ⟨"b", "x", "y", 1⟩)] "c" := by
  obtain ⟨h₁, h₂, h₃⟩ :=
    C10_createUser_total_overwrite [("b", ⟨"b", "x", "y", 1⟩)] ⟨"b", "n", "e", 0⟩
  exact ⟨h₁, h₂, h₃ "c" (by decide)⟩

/-- C9: For every GET, PUT, or DELETE request on /users/\x7bid\x7d whose
"id" path parameter is absent or the empty string, the handler returns
status 400 with body \x7b"error":"user ID is required"\x7d, without
invoking any repository operation (the state is returned unchanged). -/
theorem C9_missing_id_rejected (st : UserMap) (pp : List (String × String))
    (body : Except String UserRequest) (hpp : lookupParam pp "id" = "") :
    GetUserHandler st pp = (ErrorResponse 400 "user ID is required", st) ∧
    UpdateUserHandler st pp body = (ErrorResponse 400 "user ID is required", st) ∧
    DeleteUserHandler st pp = (ErrorResponse 400 "user ID is required", st) ∧
    (ErrorResponse 400 "user ID is required").statusCode = 400 ∧
    (ErrorResponse 400 "user ID is required").body =
      jsonErrorBody "user ID is required" := by
  refine ⟨?_, ?_, ?_, rfl, rfl⟩ <;>
    simp [GetUserHandler, UpdateUserHandler, DeleteUserHandler, hpp]

theorem C9_witness :
    GetUserHandler [] [] = (ErrorResponse 400 "user ID is required", []) ∧
    UpdateUserHandler [] [] (.ok ⟨"a", "b"⟩) =
      (ErrorResponse 400 "user ID is required", []) ∧
    DeleteUserHandler [] [] = (ErrorResponse 400 "user ID is required", []) := by
  obtain ⟨h₁, h₂, h₃, -, -⟩ := C9_missing_id_rejected [] [] (.ok ⟨"a", "b"⟩) rfl
  exact ⟨h₁, h₂, h₃⟩

/-- C8: For every request whose method is OPTIONS, regardless of its
path (and of the repository state, parsed body and generator inputs),
lambda.Router returns status 200 with an empty body and the fixed
commonHeaders set, which includes Access-Control-Allow-Origin: *; the
repository state is untouched. -/
theorem C8_options_short_circuit (st : UserMap) (req : Request)
    (genId : String) (now : Nat) (hmethod : req.httpMethod = "OPTIONS") :
    Router st req genId now = (⟨200, commonHeaders, ""⟩, st) ∧
    ("Access-Control-Allow-Origin", "*") ∈ commonHeaders := by
  constructor
  · simp [Router, hmethod]
  · simp [commonHeaders]

theorem C8_witness :
    Router [] ⟨"OPTIONS", "/users", [], .ok ⟨"", ""⟩⟩ "g" 0 =
      (⟨200, commonHeaders, ""⟩, []) ∧
    ("Access-Control-Allow-Origin", "*") ∈ commonHeaders :=
  C8_options_short_circuit [] ⟨"OPTIONS", "/users", [], .ok ⟨"", ""⟩⟩ "g" 0 rfl

/-- C6: List (GetAllUsers) never fails: the DynamoDB variant returns the
empty list when the scan errs or when unmarshalling errs, and the
unmarshalled list otherwise; the in-memory variant is a total function
of the state. -/
theorem C6_getAllUsers_never_fails (scan : Except String (List Nat))
    (unmarshal : List Nat → Except String (List User)) (st : UserMap) :
    (∀ e, scan = .error e → dynamoGetAllUsers scan unmarshal = []) ∧
    (∀ items e, scan = .ok items → unmarshal items = .error e →
      dynamoGetAllUsers scan unmarshal = []) ∧
    (∀ items users, scan = .ok items → unmarshal items = .ok users →
      dynamoGetAllUsers scan unmarshal = users) ∧
    GetAllUsers st = st.map (fun p => p.2) := by
  refine ⟨?_, ?_, ?_, rfl⟩
  · intro e he
    simp [dynamoGetAllUsers, he]
  · intro items e hs hu
    simp [dynamoGetAllUsers, hs, hu]
  · intro items users hs hu
    simp [dynamoGetAllUsers, hs, hu]

theorem C6_witness :
    dynamoGetAllUsers (Except.error "scan failed" : Except String (List Nat))
      (fun _ => .ok []) = [] :=
  (C6_getAllUsers_never_fails (Except.error "scan failed")
    (fun _ => .ok []) []).1 "scan failed" rfl

/-- C5: Dispatch is total at the adapter boundary: utils.APIResponse
always produces a response (status as requested on success, 500 with a
JSON error body on a serialization failure), and app.adapt turns any
handler error into a 500 HTTP response instead of propagating it. -/
theorem C5_dispatch_total (sc : Nat) (body : Option (Except String String)) :
    ((APIResponse sc body).2 = none →
      adapt (APIResponse sc body) =
        ⟨(APIResponse sc body).1.statusCode, (APIResponse sc body).1.body⟩) ∧
    (∀ e, body = some (.error e) →
      (APIResponse sc body).1.statusCode = 500 ∧
      (APIResponse sc body).1.body = "\x7b\"error\": \"" ++ e ++ "\"\x7d" ∧
      adapt (APIResponse sc body) =
        ⟨500, "failed to marshal response body: " ++ e ++ "\n"⟩) ∧
    ((adapt (APIResponse sc body)).status = sc ∨
      (adapt (APIResponse sc body)).status = 500) := by
  match body with
  | none =>
    refine ⟨fun _ => rfl, ?_, Or.inl rfl⟩
    intro e he
    simp at he
  | some (.ok s) =>
    refine ⟨fun _ => rfl, ?_, Or.inl rfl⟩
    intro e he
    simp at he
  | some (.error e) =>
    refine ⟨?_, ?_, Or.inr rfl⟩
    · intro h
      simp [APIResponse] at h
    · intro e₁ he
      simp only [Option.some.injEq, Except.error.injEq] at he
      subst he
      exact ⟨rfl, rfl, by simp [APIResponse, adapt, String.append_assoc]⟩

theorem C5_witness :
    (APIResponse 200 (some (.error "boom"))).1.statusCode = 500 ∧
    (APIResponse 200 (some (.error "boom"))).1.body =
      "\x7b\"error\": \"boom\"\x7d" ∧
    adapt (APIResponse 200 (some (.error "boom"))) =
      ⟨500, "failed to marshal response body: boom\n"⟩ := by
  obtain ⟨h₁, h₂, h₃⟩ :=
    (C5_dispatch_total 200 (some (.error "boom"))).2.1 "boom" rfl
  exact ⟨h₁, h₂, h₃⟩

/-- C1 counterexample: an update request whose body is the empty patch
but whose "id" path parameter is absent is answered with
\x7b"error":"user ID is required"\x7d, not with
\x7b"error":"no fields to update"\x7d, so the claim as stated fails while
the status is still 400 and the state is still untouched. -/
theorem C1_counterexample :
    (UpdateUserHandler [] [] (.ok ⟨"", ""⟩)).1 =
      ErrorResponse 400 "user ID is required" ∧
    jsonErrorBody "user ID is required" ≠ jsonErrorBody "no fields to update" := by
  constructor
  · rfl
  · decide

/-- C1 (amended): For every update request whose body is the empty patch
\x7b"name":"","email":""\x7d, UpdateUserHandler returns status 400 and
the repository state is identical before and after the call; when the
"id" path parameter is non-empty the response body is
\x7b"error":"no fields to update"\x7d (when it is absent or empty the
body is \x7b"error":"user ID is required"\x7d instead). -/
theorem C1_empty_patch_rejected (st : UserMap) (pp : List (String × String)) :
    (UpdateUserHandler st pp (.ok ⟨"", ""⟩)).2 = st ∧
    (UpdateUserHandler st pp (.ok ⟨"", ""⟩)).1.statusCode = 400 ∧
    (lookupParam pp "id" ≠ "" →
      (UpdateUserHandler st pp (.ok ⟨"", ""⟩)).1.body =
        jsonErrorBody "no fields to update") := by
  by_cases h : lookupParam pp "id" = ""
  · refine ⟨?_, ?_, fun hne => absurd h hne⟩ <;>
      simp [UpdateUserHandler, h, ErrorResponse]
  · refine ⟨?_, ?_, fun _ => ?_⟩ <;>
      simp [UpdateUserHandler, h, UserRequest.Validate, ErrorResponse]

theorem C1_witness :
    (UpdateUserHandler [("u1", ⟨"u1", "Alice", "a@x", 5⟩)] [("id", "u1")]
      (.ok ⟨"", ""⟩)).2 = [("u1", ⟨"u1", "Alice", "a@x", 5⟩)] ∧
    (UpdateUserHandler [("u1", ⟨"u1", "Alice", "a@x", 5⟩)] [("id", "u1")]
      (.ok ⟨"", ""⟩)).1.statusCode = 400 ∧
    (UpdateUserHandler [("u1", ⟨"u1", "Alice", "a@x", 5⟩)] [("id", "u1")]
      (.ok ⟨"", ""⟩)).1.body = jsonErrorBody "no fields to update" := by
  obtain ⟨h₁, h₂, h₃⟩ :=
    C1_empty_patch_rejected [("u1", ⟨"u1", "Alice", "a@x", 5⟩)] [("id", "u1")]
  exact ⟨h₁, h₂, h₃ (by decide)⟩

/-- C2: For every create request with non-empty name and non-empty email
and a generated id not already used as a key of a well-formed store,
CreateUserHandler returns status 201 with the marshalled new User whose
created_at is the current time, the generated id differs from the id of
every stored user, and GetUserByID on the new state returns exactly that
User. -/
theorem C2_create_then_get (st : UserMap) (ur : UserRequest)
    (genId : String) (now : Nat)
    (hname : ur.name ≠ "") (hemail : ur.email ≠ "")
    (hfresh : mapLookup st genId = none)
    (hwf : ∀ p ∈ st, p.1 = p.2.id) :
    (CreateUserHandler st (.ok ur) genId now).1.statusCode = 201 ∧
    (CreateUserHandler st (.ok ur) genId now).1.body =
      marshalUser ⟨genId, ur.name, ur.email, now⟩ ∧
    (∀ u ∈ GetAllUsers st, u.id ≠ genId) ∧
    GetUserByID (CreateUserHandler st (.ok ur) genId now).2 genId =
      .ok ⟨genId, ur.name, ur.email, now⟩ := by
  have hrun : CreateUserHandler st (.ok ur) genId now =
      (mkAPIResponse 201 (marshalUser ⟨genId, ur.name, ur.email, now⟩),
        mapInsert st genId ⟨genId, ur.name, ur.email, now⟩) := by
    simp [CreateUserHandler, UserRequest.Validate, hname, hemail, CreateUser]
  refine ⟨by simp [hrun, mkAPIResponse], by simp [hrun, mkAPIResponse], ?_, ?_⟩
  · intro u hu hEq
    obtain ⟨p, hp, hpu⟩ := List.mem_map.mp hu
    have hkey : p.1 = genId := by rw [hwf p hp, hpu, hEq]
    exact ((mapLookup_eq_none_iff st genId).mp hfresh) p hp hkey
  · rw [hrun]
    simp [GetUserByID, mapLookup_mapInsert_self]

theorem C2_witness :
    (CreateUserHandler [] (.ok ⟨"Alice", "alice@example.com"⟩) "id-1" 7).1.statusCode
      = 201 ∧
    GetUserByID (CreateUserHandler [] (.ok ⟨"Alice", "alice@example.com"⟩)
      "id-1" 7).2 "id-1" = .ok ⟨"id-1", "Alice", "alice@example.com", 7⟩ := by
  obtain ⟨h₁, -, -, h₄⟩ :=
    C2_create_then_get [] ⟨"Alice", "alice@example.com"⟩ "id-1" 7
      (by decide) (by decide) rfl (by intro p hp; cases hp)
  exact ⟨h₁, h₄⟩

/-- C3 counterexample: update is not a full replace. With stored user
(id "u1", name "Alice", email "a@x") and the valid patch
(name "Bob", email ""), the stored result keeps the old email "a@x"
instead of the request body's empty email value. -/
theorem C3_counterexample :
    mapLookup (UpdateUserHandler [("u1", ⟨"u1", "Alice", "a@x", 5⟩)]
      [("id", "u1")] (.ok ⟨"Bob", ""⟩)).2 "u1" =
      some ⟨"u1", "Bob", "a@x", 5⟩ ∧
    ("a@x" : String) ≠ "" := by
  constructor
  · rfl
  · decide

/-- C3 (amended): For every well-formed stored user and every valid
update request, the user returned and the user stored have the same id
and the same created_at as before the update; name and email are
replaced by the request values only where those values are non-empty,
the stored values being kept where the request field is empty. -/
theorem C3_update_preserves_id_createdAt (st : UserMap) (id : String)
    (stored : User) (ur : UserRequest)
    (hid : id ≠ "") (hstored : mapLookup st id = some stored)
    (hsid : stored.id = id)
    (hvalid : ur.name ≠ "" ∨ ur.email ≠ "") :
    (UpdateUserHandler st [("id", id)] (.ok ur)).1.statusCode = 200 ∧
    (UpdateUserHandler st [("id", id)] (.ok ur)).1.body =
      marshalUser ⟨stored.id,
        if ur.name ≠ "" then ur.name else stored.name,
        if ur.email ≠ "" then ur.email else stored.email,
        stored.createdAt⟩ ∧
    mapLookup (UpdateUserHandler st [("id", id)] (.ok ur)).2 id =
      some ⟨stored.id,
        if ur.name ≠ "" then ur.name else stored.name,
        if ur.email ≠ "" then ur.email else stored.email,
        stored.createdAt⟩ := by
  have hparam : lookupParam [("id", id)] "id" = id := by simp [lookupParam]
  by_cases hn : ur.name = "" <;> by_cases he : ur.email = ""
  · cases hvalid with
    | inl h => exact absurd hn h
    | inr h => exact absurd he h
  all_goals
    refine ⟨?_, ?_, ?_⟩ <;>
      simp [UpdateUserHandler, hparam, hid, UserRequest.Validate, hn, he,
        GetUserByID, hstored, UpdateUser, hsid, mkAPIResponse, marshalUser,
        mapLookup_mapInsert_self]

theorem C3_witness :
    (UpdateUserHandler [("u1", ⟨"u1", "Alice", "a@x", 5⟩)] [("id", "u1")]
      (.ok ⟨"Bob", ""⟩)).1.statusCode = 200 ∧
    mapLookup (UpdateUserHandler [("u1", ⟨"u1", "Alice", "a@x", 5⟩)]
      [("id", "u1")] (.ok ⟨"Bob", ""⟩)).2 "u1" =
      some ⟨"u1", "Bob", "a@x", 5⟩ := by
  obtain ⟨h₁, -, h₃⟩ :=
    C3_update_preserves_id_createdAt [("u1", ⟨"u1", "Alice", "a@x", 5⟩)] "u1"
      ⟨"u1", "Alice", "a@x", 5⟩ ⟨"Bob", ""⟩ (by decide) rfl rfl
      (Or.inl (by decide))
  refine ⟨h₁, ?_⟩
  simpa using h₃

/-- C4: For every non-empty id present in the repository,
DeleteUserHandler on that id returns status 204 with an empty body and
removes the user; calling DeleteUserHandler again with the same id then
returns status 404 with body \x7b"error":"user not found"\x7d. -/
theorem C4_delete_then_delete_again (st : UserMap) (id : String) (u : User)
    (hid : id ≠ "") (hpresent : mapLookup st id = some u) :
    (DeleteUserHandler st [("id", id)]).1.statusCode = 204 ∧
    (DeleteUserHandler st [("id", id)]).1.body = "" ∧
    mapLookup (DeleteUserHandler st [("id", id)]).2 id = none ∧
    (DeleteUserHandler (DeleteUserHandler st [("id", id)]).2
      [("id", id)]).1.statusCode = 404 ∧
    (DeleteUserHandler (DeleteUserHandler st [("id", id)]).2
      [("id", id)]).1.body = jsonErrorBody "user not found" := by
  have hparam : lookupParam [("id", id)] "id" = id := by simp [lookupParam]
  have hrun : DeleteUserHandler st [("id", id)] =
      (mkAPIResponseNoBody 204, mapDelete st id) := by
    simp [DeleteUserHandler, hparam, hid, DeleteUser, hpresent]
  have hgone : mapLookup (mapDelete st id) id = none :=
    mapLookup_mapDelete_self st id
  have hrun₂ : DeleteUserHandler (mapDelete st id) [("id", id)] =
      (ErrorResponse 404 "user not found", mapDelete st id) := by
    simp [DeleteUserHandler, hparam, hid, DeleteUser, hgone]
  rw [hrun]
  exact ⟨rfl, rfl, hgone, by simp [hrun₂, ErrorResponse],
    by simp [hrun₂, ErrorResponse]⟩

theorem C4_witness :
    (DeleteUserHandler [("u1", ⟨"u1", "Alice", "a@x", 5⟩)]
      [("id", "u1")]).1.statusCode = 204 ∧
    (DeleteUserHandler (DeleteUserHandler [("u1", ⟨"u1", "Alice", "a@x", 5⟩)]
      [("id", "u1")]).2 [("id", "u1")]).1.statusCode = 404 := by
  obtain ⟨h₁, -, -, h₄, -⟩ :=
    C4_delete_then_delete_again [("u1", ⟨"u1", "Alice", "a@x", 5⟩)] "u1"
      ⟨"u1", "Alice", "a@x", 5⟩ (by decide) rfl
  exact ⟨h₁, h₄⟩

/-- C7: Starting from an empty repository, after the CreateUser calls for
a list of users with pairwise distinct ids, GetAllUsers returns exactly
as many users as were created, and membership in the returned list
coincides with membership in the created list (order-independent set
equality). -/
theorem C7_list_after_creates (users : List User)
    (hnodup : (users.map User.id).Nodup) :
    (GetAllUsers (createMany [] users)).length = users.length ∧
    ∀ u, u ∈ GetAllUsers (createMany [] users) ↔ u ∈ users := by
  have h : createMany [] users = users.map (fun u => (u.id, u)) := by
    simpa using createMany_eq users [] hnodup (fun u _ => rfl)
  have hall : GetAllUsers (createMany [] users) = users := by
    rw [h]
    simp [GetAllUsers, Function.comp_def]
  rw [hall]
  exact ⟨rfl, fun u => Iff.rfl⟩

theorem C7_witness :
    (GetAllUsers (createMany [] [⟨"a", "A", "a@x", 1⟩,
      ⟨"b", "B", "b@x", 2⟩])).length = 2 ∧
    ∀ u, u ∈ GetAllUsers (createMany [] [⟨"a", "A", "a@x", 1⟩,
      ⟨"b", "B", "b@x", 2⟩]) ↔
      u ∈ [⟨"a", "A", "a@x", 1⟩, (⟨"b", "B", "b@x", 2⟩ : User)] :=
  C7_list_after_creates [⟨"a", "A", "a@x", 1⟩, ⟨"b", "B", "b@x", 2⟩]
    (by simp)

end GoLambdaApi
